import Mathlib

/-!
Shallow embedding of the license-resolution and policy-enforcement core of
`piplicenses.py` (pip-license-audit).  Python strings are modelled as lists
of natural-number codepoints (`PyStr`); Python sets of strings are modelled
as duplicate-free lists; `str.lower()` is modelled on the ASCII range, which
covers every comparison the program performs on license names and package
names.  Fallible code (the `set.remove` call in
`case_insensitive_partial_match_set_diff`, which raises `KeyError` when the
element was already removed) is modelled with `Option`.
-/

namespace PipAudit

/-- A Python string, as its list of codepoints. -/
abbrev PyStr := List Nat

/-- Codepoints of a Lean string literal, used to write concrete inputs. -/
def str (s : String) : PyStr := s.data.map Char.toNat

/-- `str.lower` on one codepoint (ASCII range, as used by the program). -/
def lowerCh (n : Nat) : Nat := if 65 ≤ n ∧ n ≤ 90 then n + 32 else n

/-- `s.lower()`. -/
def lower (s : PyStr) : PyStr := s.map lowerCh

/-- Python `needle in hay` for strings: substring containment. -/
def containsSub (needle : PyStr) : PyStr → Bool
  | [] => needle.isEmpty
  | c :: rest => needle.isPrefixOf (c :: rest) || containsSub needle rest

/-- One of the delimiter codepoints of `PATTERN_DELIMITER = re.compile(r"[-_.]+")`:
`-` (45), `_` (95) or `.` (46). -/
def isDelimCh (n : Nat) : Bool := decide (n = 45 ∨ n = 95 ∨ n = 46)

/-- `PATTERN_DELIMITER.sub("-", s)`: every maximal run of `-`, `_`, `.` becomes a
single `-`.  The flag records whether the previous character was part of such
a run. -/
def collapseDelims : Bool → PyStr → PyStr
  | _, [] => []
  | prev, c :: rest =>
    if isDelimCh c then
      if prev then collapseDelims true rest
      else 45 :: collapseDelims true rest
    else c :: collapseDelims false rest

/-- `normalize_pkg_name` (piplicenses.py line 138):
`PATTERN_DELIMITER.sub("-", pkg_name).lower()`. -/
def normalize_pkg_name (pkg_name : PyStr) : PyStr :=
  lower (collapseDelims false pkg_name)

/-- `case_insensitive_set_intersect` (line 419): elements of `set_a` whose
lower-cased form equals the lower-cased form of some element of `set_b`. -/
def case_insensitive_set_intersect (set_a set_b : List PyStr) : List PyStr :=
  let set_b_lower := set_b.map lower
  set_a.filter (fun elem => decide (lower elem ∈ set_b_lower))

/-- `case_insensitive_partial_match_set_intersect` (line 429): elements of
`set_a` containing some element of `set_b` as a case-insensitive substring. -/
def case_insensitive_partial_match_set_intersect
    (set_a set_b : List PyStr) : List PyStr :=
  set_a.filter (fun item_a =>
    set_b.any (fun item_b => containsSub (lower item_b) (lower item_a)))

/-- `case_insensitive_set_diff` (line 447): elements of `set_a` with no
case-insensitive equal in `set_b`. -/
def case_insensitive_set_diff (set_a set_b : List PyStr) : List PyStr :=
  let set_b_lower := set_b.map lower
  set_a.filter (fun elem => !decide (lower elem ∈ set_b_lower))

/-- Python `set.remove`: removes the element, raising `KeyError` (`none`) when
it is absent. -/
def set_remove (s : List PyStr) (x : PyStr) : Option (List PyStr) :=
  if x ∈ s then some (s.erase x) else none

/-- Inner loop of `case_insensitive_partial_match_set_diff` (lines 441-443):
for one `item_a`, walk `set_b` and call `uncommon_items.remove(item_a)` at
every substring match. -/
def partialDiffInner (item_a : PyStr) : List PyStr → List PyStr → Option (List PyStr)
  | [], acc => some acc
  | item_b :: rest, acc =>
    if containsSub (lower item_b) (lower item_a) then
      match set_remove acc item_a with
      | none => none
      | some acc2 => partialDiffInner item_a rest acc2
    else partialDiffInner item_a rest acc

/-- Outer loop of `case_insensitive_partial_match_set_diff` (lines 440-444). -/
def partialDiffOuter (set_b : List PyStr) : List PyStr → List PyStr → Option (List PyStr)
  | [], acc => some acc
  | item_a :: rest, acc =>
    match partialDiffInner item_a set_b acc with
    | none => none
    | some acc2 => partialDiffOuter set_b rest acc2

/-- `case_insensitive_partial_match_set_diff` (line 438): starts from a copy of
`set_a` and removes every element with a substring match in `set_b`; `none`
models the `KeyError` that `set.remove` raises when the element was already
removed by an earlier match. -/
def case_insensitive_partial_match_set_diff
    (set_a set_b : List PyStr) : Option (List PyStr) :=
  partialDiffOuter set_b set_a set_a

/-- `FromArg` (line 843): the resolution strategy. -/
inductive FromArg where
  | META
  | CLASSIFIER
  | MIXED
  | ALL
deriving DecidableEq

/-- The `LICENSE_UNKNOWN` sentinel (line 192). -/
def LICENSE_UNKNOWN : PyStr := str "UNKNOWN"

/-- `select_license_by_source` (line 620): the classifier-derived set (with the
`UNKNOWN` fallback) for strategy CLASSIFIER, or MIXED with classifiers
present; otherwise the singleton of the declared license string. -/
def select_license_by_source (from_source : FromArg)
    (license_classifier : List PyStr) (license_meta : PyStr) : List PyStr :=
  let license_classifier_set :=
    if license_classifier.dedup = [] then [LICENSE_UNKNOWN]
    else license_classifier.dedup
  if from_source = FromArg.CLASSIFIER ∨
      (from_source = FromArg.MIXED ∧ 0 < license_classifier.length) then
    license_classifier_set
  else
    [license_meta]

/-- Lexicographic (codepoint) order on Python strings, as used by `sorted`. -/
def lexLe : PyStr → PyStr → Bool
  | [], _ => true
  | _ :: _, [] => false
  | x :: xs, y :: ys => if x < y then true else if y < x then false else lexLe xs ys

/-- Insert into a `lexLe`-sorted list. -/
def insertSorted (x : PyStr) : List PyStr → List PyStr
  | [] => [x]
  | y :: ys => if lexLe x y then x :: y :: ys else y :: insertSorted x ys

/-- Python `sorted` on a set of strings. -/
def sortStrs (l : List PyStr) : List PyStr := l.foldr insertSorted []

/-- `sep.join(l)`. -/
def joinSep (sep : PyStr) : List PyStr → PyStr
  | [] => []
  | [x] => x
  | x :: y :: rest => x ++ sep ++ joinSep sep (y :: rest)

/-- `"; ".join(sorted(s))`: the canonical rendering used both by the
diagnostics and by the summary aggregation. -/
def sortedJoin (s : List PyStr) : PyStr := joinSep (str "; ") (sortStrs s)

/-- Outcome of the per-package policy section of `get_packages`
(lines 322-363).  `Crash` is the uncaught `KeyError` from
`case_insensitive_partial_match_set_diff`. -/
inductive Outcome where
  | Continue : Outcome
  | RejectFailOn : List PyStr → Outcome
  | RejectAllowOnly : List PyStr → Outcome
  | Crash : Outcome
deriving DecidableEq

/-- The policy check of `get_packages` (lines 322-363) for one package:
first the fail-on intersection, then the allow-only difference, each exact
or partial according to `partialMatch`. -/
def enforce (license_names fail_on_licenses allow_only_licenses : List PyStr)
    (partialMatch : Bool) : Outcome :=
  let failed_licenses :=
    if fail_on_licenses ≠ [] then
      if !partialMatch then
        case_insensitive_set_intersect license_names fail_on_licenses
      else
        case_insensitive_partial_match_set_intersect license_names fail_on_licenses
    else []
  if failed_licenses ≠ [] then
    Outcome.RejectFailOn failed_licenses
  else if allow_only_licenses ≠ [] then
    let uncommonOpt :=
      if !partialMatch then
        some (case_insensitive_set_diff license_names allow_only_licenses)
      else
        case_insensitive_partial_match_set_diff license_names allow_only_licenses
    match uncommonOpt with
    | none => Outcome.Crash
    | some uncommon_licenses =>
      if uncommon_licenses.length = license_names.length then
        Outcome.RejectAllowOnly uncommon_licenses
      else
        Outcome.Continue
  else
    Outcome.Continue

/-- The stderr line of lines 333-340:
`"fail-on license {}; ... was found for package {}:{}\n"`. -/
def failOnDiag (failed_licenses : List PyStr) (name version : PyStr) : PyStr :=
  str "fail-on license " ++ sortedJoin failed_licenses ++
    str " was found for package " ++ name ++ str ":" ++ version ++ str "\n"

/-- The stderr line of lines 355-362:
`"license {} not in allow-only licenses was found for package {}:{}\n"`. -/
def allowOnlyDiag (uncommon_licenses : List PyStr) (name version : PyStr) : PyStr :=
  str "license " ++ sortedJoin uncommon_licenses ++
    str " not in allow-only licenses was found for package " ++
    name ++ str ":" ++ version ++ str "\n"

/-- The fields of one package record that the core consumes. -/
structure PkgInfo where
  name : PyStr
  version : PyStr
  license_classifier : List PyStr
  license : PyStr
deriving DecidableEq

/-- The configuration `get_packages` reads from `args`, with the fail-on and
allow-only inputs already split on `;`. -/
structure Config where
  from_source : FromArg
  ignore_packages : List PyStr
  packages : List PyStr
  with_system : Bool
  partialMatch : Bool
  fail_on_licenses : List PyStr
  allow_only_licenses : List PyStr

/-- `SYSTEM_PACKAGES` (line 182). -/
def SYSTEM_PACKAGES : List PyStr :=
  [str "pip-license-audit", str "pip", str "prettytable", str "wcwidth",
   str "setuptools", str "tomli", str "wheel"]

/-- The three `continue` filters of `get_packages` (lines 298-312): exclusion
by normalized name or normalized `name:version` key, then the include list,
then the system-package exclusion. -/
def passes_filter (cfg : Config) (pkg : PkgInfo) : Bool :=
  let ignore_pkgs_as_normalize := cfg.ignore_packages.map normalize_pkg_name
  let pkgs_as_normalize := cfg.packages.map normalize_pkg_name
  let pkg_name := normalize_pkg_name pkg.name
  let pkg_name_and_version := pkg_name ++ str ":" ++ pkg.version
  if lower pkg_name ∈ ignore_pkgs_as_normalize ∨
      lower pkg_name_and_version ∈ ignore_pkgs_as_normalize then false
  else if pkgs_as_normalize ≠ [] ∧ lower pkg_name ∉ pkgs_as_normalize then false
  else if cfg.with_system = false ∧ pkg_name ∈ SYSTEM_PACKAGES then false
  else true

/-- Observable result of a `get_packages` run: the yielded rows, or
`sys.exit(1)` with the single stderr diagnostic and the rows yielded before
it, or an uncaught exception. -/
inductive RunResult where
  | ok : List PkgInfo → RunResult
  | failed : Nat → PyStr → List PkgInfo → RunResult
  | error : RunResult
deriving DecidableEq

/-- Prepend a yielded row to the eventual result of the rest of the run. -/
def withRow (pkg : PkgInfo) : RunResult → RunResult
  | RunResult.ok rows => RunResult.ok (pkg :: rows)
  | RunResult.failed code diag rows => RunResult.failed code diag (pkg :: rows)
  | RunResult.error => RunResult.error

/-- The package loop of `get_packages` (lines 298-365): filter, resolve via
`select_license_by_source`, run the fail-on then allow-only checks, and yield
the surviving packages in order. -/
def get_packages_run (cfg : Config) : List PkgInfo → RunResult
  | [] => RunResult.ok []
  | pkg :: rest =>
    if passes_filter cfg pkg = false then get_packages_run cfg rest
    else
      let license_names :=
        select_license_by_source cfg.from_source pkg.license_classifier pkg.license
      match enforce license_names cfg.fail_on_licenses cfg.allow_only_licenses
          cfg.partialMatch with
      | Outcome.RejectFailOn failed_licenses =>
        RunResult.failed 1 (failOnDiag failed_licenses pkg.name pkg.version) []
      | Outcome.RejectAllowOnly uncommon_licenses =>
        RunResult.failed 1 (allowOnlyDiag uncommon_licenses pkg.name pkg.version) []
      | Outcome.Crash => RunResult.error
      | Outcome.Continue => withRow pkg (get_packages_run cfg rest)

/-- One step of the `Counter` of `create_summary_table` (line 400): increment
the entry of key `k`, first-encounter order preserved. -/
def bump (acc : List (PyStr × Nat)) (k : PyStr) : List (PyStr × Nat) :=
  match acc with
  | [] => [(k, 1)]
  | (k0, n) :: rest => if k0 = k then (k0, n + 1) :: rest else (k0, n) :: bump rest k

/-- The `Counter` of `create_summary_table` (lines 399-411) over a stream of
resolved license sets: one increment per package, keyed by the sorted,
`"; "`-joined rendering of its resolved set. -/
def create_summary_counts (resolved_sets : List (List PyStr)) : List (PyStr × Nat) :=
  resolved_sets.foldl (fun acc s => bump acc (sortedJoin s)) []

/-- Count recorded for key `k` (0 when absent). -/
def lookupCount (acc : List (PyStr × Nat)) (k : PyStr) : Nat :=
  match acc with
  | [] => 0
  | (k0, n) :: rest => if k0 = k then n else lookupCount rest k

/-- Modelled from the spec: the aggregator contract of spec section 4.5, one
increment per incoming package, keyed by the canonical rendering of its
resolved set.  Used to compare the `Counter` fold against the spec's words. -/
def countKey (k : PyStr) : List (List PyStr) → Nat
  | [] => 0
  | s :: rest => (if sortedJoin s = k then 1 else 0) + countKey k rest

/-! Helper lemmas. -/

lemma lowerCh_lowerCh (n : Nat) : lowerCh (lowerCh n) = lowerCh n := by
  unfold lowerCh
  split_ifs <;> omega

lemma isDelimCh_lowerCh (n : Nat) : isDelimCh (lowerCh n) = isDelimCh n := by
  unfold isDelimCh lowerCh
  split_ifs with h
  · rw [decide_eq_decide]
    omega
  · rfl

lemma lower_lower (s : PyStr) : lower (lower s) = lower s := by
  induction s with
  | nil => rfl
  | cons c rest ih =>
    simp only [lower, List.map_cons] at ih ⊢
    rw [lowerCh_lowerCh, ih]

lemma lowerCh_45 : lowerCh 45 = 45 := rfl

lemma collapseDelims_lower (prev : Bool) (s : PyStr) :
    collapseDelims prev (lower s) = lower (collapseDelims prev s) := by
  induction s generalizing prev with
  | nil => rfl
  | cons c rest ih =>
    simp only [lower] at ih ⊢
    by_cases h : isDelimCh c = true <;>
      cases prev <;>
        simp [collapseDelims, isDelimCh_lowerCh, h, ih, lowerCh_45]

lemma collapseDelims_collapseDelims (s : PyStr) : ∀ prev : Bool,
    collapseDelims prev (collapseDelims prev s) = collapseDelims prev s := by
  induction s with
  | nil => intro prev; rfl
  | cons c rest ih =>
    intro prev
    have h45 : isDelimCh 45 = true := rfl
    by_cases h : isDelimCh c = true <;>
      cases prev <;>
        simp [collapseDelims, h, h45, ih]

lemma isPrefixOf_self (l : List Nat) : l.isPrefixOf l = true := by
  induction l with
  | nil => rfl
  | cons c rest ih => simp [List.isPrefixOf, ih]

lemma containsSub_self (s : PyStr) : containsSub s s = true := by
  cases s with
  | nil => rfl
  | cons c rest => simp [containsSub, isPrefixOf_self]

lemma passes_filter_excluded (cfg : Config) (pkg : PkgInfo)
    (h : lower (normalize_pkg_name pkg.name) ∈
      cfg.ignore_packages.map normalize_pkg_name) :
    passes_filter cfg pkg = false := by
  simp only [passes_filter]
  rw [if_pos (Or.inl h)]

lemma lookupCount_bump (acc : List (PyStr × Nat)) (k k' : PyStr) :
    lookupCount (bump acc k) k' = lookupCount acc k' + (if k = k' then 1 else 0) := by
  induction acc with
  | nil =>
    simp only [bump, lookupCount]
    split_ifs <;> omega
  | cons hd rest ih =>
    obtain ⟨k0, n⟩ := hd
    simp only [bump]
    by_cases h0 : k0 = k
    · subst h0
      simp only [if_pos rfl, lookupCount]
      by_cases h1 : k0 = k'
      · simp [h1]
      · simp [h1]
    · simp only [if_neg h0, lookupCount]
      by_cases h1 : k0 = k'
      · have hk : ¬(k = k') := fun hkk => h0 (hkk ▸ h1.symm ▸ rfl)
        simp [h1, hk]
      · simp [h1, ih]

lemma lookupCount_foldl (sets : List (List PyStr)) (acc : List (PyStr × Nat)) (k : PyStr) :
    lookupCount (List.foldl (fun a s => bump a (sortedJoin s)) acc sets) k
      = lookupCount acc k + countKey k sets := by
  induction sets generalizing acc with
  | nil => simp [countKey]
  | cons s rest ih =>
    simp only [List.foldl_cons, countKey]
    rw [ih, lookupCount_bump]
    omega

/-! Claim theorems. -/

/-- Claim C1 (code_bug): the allow-only enforcement should return Continue as
soon as one resolved license matches the allow-only list, and reject only on
zero overlap.  The exact-match cases behave as claimed (the compound set
{MIT, Apache-2.0} with allow-only {Apache-2.0} continues; zero overlap
rejects with the whole difference), but under partial matching a resolved
license matching two allow-list entries makes `set.remove` raise `KeyError`
(modelled `Outcome.Crash`) instead of continuing, although the overlap is
non-empty. -/
theorem claim_c1_allow_only_policy :
    enforce [str "MIT", str "Apache-2.0"] [] [str "Apache-2.0"] false = Outcome.Continue
    ∧ enforce [str "GPL-3.0"] [] [str "MIT"] false
        = Outcome.RejectAllowOnly [str "GPL-3.0"]
    ∧ case_insensitive_partial_match_set_intersect
        [str "GNU GPL"] [str "GNU", str "GPL"] = [str "GNU GPL"]
    ∧ enforce [str "GNU GPL"] [] [str "GNU", str "GPL"] true = Outcome.Crash := by
  decide

/-- Claim C2 (code_bug): a fail-on match should always terminate the run with
exit status 1, a single diagnostic naming the package, its version and the
sorted offending licenses, and no row at or after the offender; the fail-on
check precedes the allow-only check.  The second and third conjuncts show the
claimed behaviour (including fail-on winning over allow-only), but the first
shows an earlier package's allow-only check raising `KeyError` (run ends in
an uncaught exception, no fail-on diagnostic) even though a later package
matches the non-empty fail-on list. -/
theorem claim_c2_fail_on_fail_fast :
    get_packages_run
        ⟨FromArg.META, [], [], true, true, [str "MIT"], [str "GNU", str "GPL"]⟩
        [⟨str "liba", str "1.0", [], str "GNU GPL"⟩,
         ⟨str "bad", str "2.0", [], str "MIT"⟩]
      = RunResult.error
    ∧ get_packages_run
        ⟨FromArg.META, [], [], true, false, [str "MIT"], []⟩
        [⟨str "ok", str "0.1", [], str "Apache-2.0"⟩,
         ⟨str "bad", str "2.0", [], str "MIT"⟩,
         ⟨str "later", str "3.0", [], str "BSD"⟩]
      = RunResult.failed 1 (str "fail-on license MIT was found for package bad:2.0\n")
          [⟨str "ok", str "0.1", [], str "Apache-2.0"⟩]
    ∧ get_packages_run
        ⟨FromArg.META, [], [], true, false, [str "MIT"], [str "Apache-2.0"]⟩
        [⟨str "both", str "1.0", [], str "MIT"⟩]
      = RunResult.failed 1 (str "fail-on license MIT was found for package both:1.0\n") [] := by
  decide

/-- Claim C3 (code_bug): the four matcher operations should be total, but
`case_insensitive_partial_match_set_diff` raises `KeyError` (modelled `none`)
whenever one element of `set_a` contains two distinct elements of `set_b` as
case-insensitive substrings; it is total on single-match inputs. -/
theorem claim_c3_matcher_totality :
    case_insensitive_partial_match_set_diff [str "GNU GPL"] [str "GNU", str "GPL"] = none
    ∧ case_insensitive_partial_match_set_diff [str "Apache License"] [str "Apache"] = some []
    ∧ case_insensitive_partial_match_set_diff
        [str "Apache License", str "MIT"] [str "Apache"] = some [str "MIT"] := by
  decide

/-- Claim C4, counterexample: the claim says a package named foo version 2.0
with exclude list ["foo:2.0"] is rejected; the code normalizes the exclude
entry wholesale ("foo:2.0" becomes "foo:2-0") and compares it with the key
"foo:2.0", so the package passes the filter. -/
theorem claim_c4_counterexample :
    passes_filter ⟨FromArg.MIXED, [str "foo:2.0"], [], true, false, [], []⟩
      ⟨str "foo", str "2.0", [], str "MIT"⟩ = true := by
  decide

/-- Claim C4, amended: an exclude entry is matched after normalizing the whole
entry, so "foo:2.0" (normalized "foo:2-0") excludes neither foo 1.0 nor
foo 2.0; a version-pinned entry whose version part has no delimiter
characters works ("foo:2" rejects foo version 2); a bare-name entry rejects
every version; and any match of the normalized name against the exclude
list rejects the package regardless of the include list and system-package
settings. -/
theorem claim_c4_amended :
    passes_filter ⟨FromArg.MIXED, [str "foo:2.0"], [], true, false, [], []⟩
      ⟨str "foo", str "1.0", [], str "MIT"⟩ = true
    ∧ passes_filter ⟨FromArg.MIXED, [str "foo:2.0"], [], true, false, [], []⟩
      ⟨str "foo", str "2.0", [], str "MIT"⟩ = true
    ∧ passes_filter ⟨FromArg.MIXED, [str "foo:2"], [], true, false, [], []⟩
      ⟨str "foo", str "2", [], str "MIT"⟩ = false
    ∧ (∀ version cls lic,
        passes_filter ⟨FromArg.MIXED, [str "foo"], [], true, false, [], []⟩
          ⟨str "foo", version, cls, lic⟩ = false)
    ∧ (∀ (cfg : Config) (pkg : PkgInfo),
        lower (normalize_pkg_name pkg.name) ∈
          cfg.ignore_packages.map normalize_pkg_name →
        passes_filter cfg pkg = false) := by
  refine ⟨by decide, by decide, by decide, ?_, passes_filter_excluded⟩
  intro version cls lic
  apply passes_filter_excluded
  show lower (normalize_pkg_name (str "foo")) ∈ List.map normalize_pkg_name [str "foo"]
  decide

/-- Claim C4, amended, witness: the exclusion-precedence part applied to a
concrete package whose normalized name is in the exclude list even though the
include list names it and system packages are enabled. -/
theorem claim_c4_amended_witness :
    passes_filter ⟨FromArg.MIXED, [str "Bar_Pkg"], [str "bar-pkg"], true, false, [], []⟩
      ⟨str "bar.pkg", str "9.9", [], str "MIT"⟩ = false :=
  claim_c4_amended.2.2.2.2
    ⟨FromArg.MIXED, [str "Bar_Pkg"], [str "bar-pkg"], true, false, [], []⟩
    ⟨str "bar.pkg", str "9.9", [], str "MIT"⟩ (by decide)

/-- Claim C5, counterexample: the claim says policy enforcement is disabled
under strategy ALL and no package is rejected by policy in that mode; the
code still runs `select_license_by_source` (whose else-branch returns the
declared license) and rejects this package under fail-on. -/
theorem claim_c5_counterexample :
    get_packages_run ⟨FromArg.ALL, [], [], true, false, [str "MIT"], []⟩
        [⟨str "foo", str "1.0", [str "Apache-2.0"], str "MIT"⟩]
      = RunResult.failed 1 (str "fail-on license MIT was found for package foo:1.0\n") [] := by
  decide

/-- Claim C5, amended: under strategy ALL every package's licenses are still
passed through the single-set selector, which takes its declared-license
branch and returns the singleton of the declared license; both policy checks
run against that singleton, so packages can be rejected by policy under ALL
(here by allow-only, even though the classifier license is allowed). -/
theorem claim_c5_amended :
    (∀ (cls : List PyStr) (meta : PyStr),
      select_license_by_source FromArg.ALL cls meta = [meta])
    ∧ get_packages_run ⟨FromArg.ALL, [], [], true, false, [], [str "Apache-2.0"]⟩
        [⟨str "pkg", str "1.0", [str "Apache-2.0"], str "MIT"⟩]
      = RunResult.failed 1
          (str "license MIT not in allow-only licenses was found for package pkg:1.0\n") [] := by
  refine ⟨?_, by decide⟩
  intro cls meta
  simp [select_license_by_source]

/-- Claim C6: the license source selector returns the deduplicated classifier
licenses for CLASSIFIER, or MIXED with a non-empty classifier list,
substituting {UNKNOWN} for an empty classifier list under CLASSIFIER; it
returns the singleton of the declared license for META and for MIXED with no
classifiers; and the three concrete examples evaluate as stated. -/
theorem claim_c6_select_license :
    (∀ (cls : List PyStr) (meta : PyStr),
      select_license_by_source FromArg.CLASSIFIER cls meta =
        if cls = [] then [LICENSE_UNKNOWN] else cls.dedup)
    ∧ (∀ (cls : List PyStr) (meta : PyStr),
      select_license_by_source FromArg.MIXED cls meta =
        if cls = [] then [meta] else cls.dedup)
    ∧ (∀ (cls : List PyStr) (meta : PyStr),
      select_license_by_source FromArg.META cls meta = [meta])
    ∧ select_license_by_source FromArg.MIXED [] (str "MIT") = [str "MIT"]
    ∧ select_license_by_source FromArg.MIXED [str "Apache-2.0"] (str "MIT")
        = [str "Apache-2.0"]
    ∧ select_license_by_source FromArg.CLASSIFIER [] (str "MIT") = [str "UNKNOWN"] := by
  refine ⟨?_, ?_, ?_, by decide, by decide, by decide⟩
  · intro cls meta
    cases cls with
    | nil => rfl
    | cons c cs => simp [select_license_by_source, List.dedup_eq_nil]
  · intro cls meta
    cases cls with
    | nil => rfl
    | cons c cs => simp [select_license_by_source, List.dedup_eq_nil]
  · intro cls meta
    simp [select_license_by_source]

/-- Claim C7: partial intersection is a superset of exact intersection: any
element of `a` whose lower-cased form equals that of some element of `b` also
contains that element as a case-insensitive substring. -/
theorem claim_c7_partial_superset_exact :
    ∀ (a b : List PyStr) (x : PyStr),
      x ∈ case_insensitive_set_intersect a b →
      x ∈ case_insensitive_partial_match_set_intersect a b := by
  intro a b x hx
  unfold case_insensitive_set_intersect at hx
  unfold case_insensitive_partial_match_set_intersect
  simp only [List.mem_filter, decide_eq_true_eq] at hx ⊢
  obtain ⟨hmem, hcond⟩ := hx
  refine ⟨hmem, ?_⟩
  obtain ⟨y, hyb, hyx⟩ := List.mem_map.mp hcond
  rw [List.any_eq_true]
  exact ⟨y, hyb, by rw [hyx]; exact containsSub_self _⟩

/-- Claim C7, witness: the superset inclusion applied at a = {MIT},
b = {mit}, whose exact intersection contains MIT. -/
theorem claim_c7_witness :
    str "MIT" ∈ case_insensitive_partial_match_set_intersect [str "MIT"] [str "mit"] :=
  claim_c7_partial_superset_exact [str "MIT"] [str "mit"] (str "MIT") (by decide)

/-- Claim C8: the package-name normalizer (collapse each maximal run of
delimiter characters to a single hyphen, then lower-case) is idempotent, and
normalizes "My_Pkg.Name" to "my-pkg-name". -/
theorem claim_c8_normalize_idempotent :
    (∀ x : PyStr, normalize_pkg_name (normalize_pkg_name x) = normalize_pkg_name x)
    ∧ normalize_pkg_name (str "My_Pkg.Name") = str "my-pkg-name" := by
  refine ⟨?_, by decide⟩
  intro x
  unfold normalize_pkg_name
  rw [collapseDelims_lower, collapseDelims_collapseDelims, lower_lower]

/-- Claim C9: the summary aggregator performs exactly one increment per
incoming resolved set, keyed by the sorted, "; "-joined canonical rendering
(the count recorded for any key equals the number of packages whose rendering
is that key); the MIT/MIT/{MIT,Apache-2.0} example yields counts 2 and 1; and
a package is counted under another set's key exactly when the two canonical
renderings are equal. -/
theorem claim_c9_aggregator :
    (∀ (sets : List (List PyStr)) (k : PyStr),
      lookupCount (create_summary_counts sets) k = countKey k sets)
    ∧ create_summary_counts [[str "MIT"], [str "MIT"], [str "MIT", str "Apache-2.0"]]
        = [(str "MIT", 2), (str "Apache-2.0; MIT", 1)]
    ∧ (∀ s1 s2 : List PyStr,
        sortedJoin s1 = sortedJoin s2 ↔
        lookupCount (create_summary_counts [s1]) (sortedJoin s2) = 1) := by
  refine ⟨?_, by decide, ?_⟩
  · intro sets k
    unfold create_summary_counts
    rw [lookupCount_foldl]
    simp [lookupCount]
  · intro s1 s2
    simp only [create_summary_counts, List.foldl_cons, List.foldl_nil, bump, lookupCount]
    split_ifs with h <;> simp [h]

/-- Claim C10: for every strategy and inputs the selector returns a non-empty
set: the classifier branch substitutes {UNKNOWN} when the classifier set is
empty and the declared-license branch returns a singleton. -/
theorem claim_c10_selector_nonempty :
    ∀ (from_source : FromArg) (cls : List PyStr) (meta : PyStr),
      select_license_by_source from_source cls meta ≠ [] := by
  intro from_source cls meta
  unfold select_license_by_source
  split_ifs with h1 h2 <;> simp_all

end PipAudit
